import Mathlib

/-!
Shallow embedding of the Canadian mortgage pre-qualification rule engine in
src/mcp/lambda/lambda_function.py: four calculators (GDS/TDS debt-service
ratios, OSFI B-20 stress test, minimum down payment with CMHC premium,
credit-score threshold) plus the lambda dispatcher.

Modelling conventions:
- Python float arithmetic is modelled by exact rationals. Numeric literals
  such as 0.05 or 2.80 denote the exact rational value of the decimal text.
- A request (the lambda event) is a finite map from string keys to values.
  A value is either a number, written `JVal.num q` for any Python value that
  the builtin conversions accept (JSON numbers, numeric strings, booleans),
  or `JVal.other desc`, standing for any value they reject, where `desc` is
  the text of the exception the conversion raises.
- Python exceptions are modelled by `Except String`: a raised exception is
  an `Except.error` carrying the exception text, and the blanket
  `except Exception` handler of each calculator shows up as the wrapping of
  that error into the calculator result. Division by zero on rationals,
  which in Python raises `ZeroDivisionError`, is modelled by an explicit
  zero test at each division the inputs can actually drive to zero.
- `round(x, 2)` is modelled as exact half-to-even rounding at two decimals
  of the rational value.
- Result dictionaries become structures with one field per dictionary key.
  The fields named gds_ratio and tds_ratio in the Python dictionary are
  called gds_ratio_pct and tds_ratio_pct here. The message field of the
  stress-test result and the recommendation field of the down-payment
  result interpolate the decimal text of a float; they are omitted from the
  structures, as noted at each structure.
-/

/-- A request value: `num q` is any Python value the numeric conversions
accept, with rational value `q`; `other desc` is any value they reject,
with `desc` the exception text. -/
inductive JVal where
  | num : ℚ → JVal
  | other : String → JVal
  deriving DecidableEq

/-- A lambda event: a finite key-value map, as an association list. -/
abbrev Event := List (String × JVal)

/-- `event.get(key)`: first binding of `key`, if any. -/
def getField : Event → String → Option JVal
  | [], _ => none
  | (k, v) :: rest, key => if k = key then some v else getField rest key

/-- `float(event.get(key, default))`: the default when the key is absent,
the numeric value when present and convertible, otherwise the raised
conversion error. -/
def pyFloat (event : Event) (key : String) (default : ℚ) : Except String ℚ :=
  match getField event key with
  | none => Except.ok default
  | some (JVal.num q) => Except.ok q
  | some (JVal.other desc) => Except.error desc

/-- Truncation of a rational toward zero, as Python `int()` applied to an
exact numeric value. -/
def ratTrunc (q : ℚ) : ℤ := Int.tdiv q.num q.den

/-- `int(event.get(key, default))`: as `pyFloat`, truncating toward zero. -/
def pyInt (event : Event) (key : String) (default : ℤ) : Except String ℤ :=
  match getField event key with
  | none => Except.ok default
  | some (JVal.num q) => Except.ok (ratTrunc q)
  | some (JVal.other desc) => Except.error desc

/-- Half-to-even rounding of a rational to an integer, the rule used by
Python `round`. -/
def roundHalfEven (q : ℚ) : ℤ :=
  if q - ⌊q⌋ < 1/2 then ⌊q⌋
  else if 1/2 < q - ⌊q⌋ then ⌊q⌋ + 1
  else if ⌊q⌋ % 2 = 0 then ⌊q⌋ else ⌊q⌋ + 1

/-- `round(x, 2)`: half-to-even rounding at two decimal places. -/
def round2 (q : ℚ) : ℚ := (roundHalfEven (q * 100) : ℚ) / 100

/-- Result dictionary of `calculate_gds_tds`. The Python keys gds_ratio and
tds_ratio are the fields gds_ratio_pct and tds_ratio_pct. -/
structure GdsTdsResult where
  gds_ratio_pct : ℚ
  tds_ratio_pct : ℚ
  gds_limit : ℚ
  tds_limit : ℚ
  gds_pass : Bool
  tds_pass : Bool
  overall_pass : Bool
  monthly_income : ℚ
  gds_costs : ℚ
  tds_costs : ℚ
  recommendation : String
  deriving DecidableEq

/-- The six `float(...)` conversions at the top of `calculate_gds_tds`, in
source order: the first failing conversion raises. -/
def convGds (event : Event) : Except String (ℚ × ℚ × ℚ × ℚ × ℚ × ℚ) := do
  let gross_income ← pyFloat event ("gross_annual_income") 0
  let mortgage_payment ← pyFloat event ("monthly_mortgage_payment") 0
  let property_taxes ← pyFloat event ("monthly_property_taxes") 0
  let heating ← pyFloat event ("monthly_heating") 0
  let condo_fees ← pyFloat event ("monthly_condo_fees") 0
  let other_debts ← pyFloat event ("monthly_other_debts") 0
  pure (gross_income, mortgage_payment, property_taxes, heating, condo_fees, other_debts)

/-- Body of `calculate_gds_tds` after the conversions: the zero-income
check and the ratio computations, on the six parsed numbers in source
order. -/
def gdsBody (gross_income mortgage_payment property_taxes heating condo_fees other_debts : ℚ) :
    Except String GdsTdsResult :=
  if gross_income = 0 then Except.error ("Gross annual income is required")
  else
    let monthly_income := gross_income / 12
    let gds_costs := mortgage_payment + property_taxes + heating + (0.5 * condo_fees)
    let gds_ratio := (gds_costs / monthly_income) * 100
    let tds_costs := gds_costs + other_debts
    let tds_ratio := (tds_costs / monthly_income) * 100
    let gds_pass := decide (gds_ratio ≤ 39)
    let tds_pass := decide (tds_ratio ≤ 44)
    Except.ok
      { gds_ratio_pct := round2 gds_ratio
        tds_ratio_pct := round2 tds_ratio
        gds_limit := 39
        tds_limit := 44
        gds_pass := gds_pass
        tds_pass := tds_pass
        overall_pass := gds_pass && tds_pass
        monthly_income := round2 monthly_income
        gds_costs := round2 gds_costs
        tds_costs := round2 tds_costs
        recommendation :=
          if gds_pass && tds_pass then ("Approved - Debt ratios within CMHC limits")
          else ("Denied - Debt ratios exceed CMHC limits") }

/-- `calculate_gds_tds`: GDS and TDS ratios against the CMHC limits 39 and
44. An error raised inside the body is caught by the blanket handler and
prefixed; the zero-income check returns its error dictionary unprefixed. -/
def calculate_gds_tds (event : Event) : Except String GdsTdsResult :=
  match convGds event with
  | Except.error e => Except.error ("GDS/TDS calculation failed: " ++ e)
  | Except.ok (gross_income, mortgage_payment, property_taxes, heating, condo_fees, other_debts) =>
    gdsBody gross_income mortgage_payment property_taxes heating condo_fees other_debts

/-- Event carrying the six numeric GDS/TDS arguments. -/
def mkGdsEvent (gi mp pt ht cf od : ℚ) : Event :=
  [("gross_annual_income", JVal.num gi),
   ("monthly_mortgage_payment", JVal.num mp),
   ("monthly_property_taxes", JVal.num pt),
   ("monthly_heating", JVal.num ht),
   ("monthly_condo_fees", JVal.num cf),
   ("monthly_other_debts", JVal.num od)]

/-- Result dictionary of `osfi_b20_stress_test`. The Python message key,
which interpolates the decimal text of the qualifying rate, is omitted. -/
structure StressTestResult where
  contract_rate : ℚ
  qualifying_rate : ℚ
  stress_test_applied : Bool
  qualifying_payment : ℚ
  actual_payment : ℚ
  additional_qualifying_amount : ℚ
  loan_amount : ℚ
  amortization_years : ℤ
  deriving DecidableEq

/-- The amortizing-loan monthly payment as the Python code computes it:
the closed formula when the monthly rate is positive, straight-line
otherwise; a zero denominator, which in Python raises `ZeroDivisionError`,
is the error case. For a positive rate the denominator is zero exactly
when the number of payments is zero. -/
def pyPayment (loan_amount monthly_rate : ℚ) (num_payments : ℤ) : Except String ℚ :=
  if 0 < monthly_rate then
    if (1 + monthly_rate) ^ num_payments - 1 = 0 then Except.error ("float division by zero")
    else Except.ok (loan_amount * (monthly_rate * (1 + monthly_rate) ^ num_payments) /
      ((1 + monthly_rate) ^ num_payments - 1))
  else
    if (num_payments : ℚ) = 0 then Except.error ("float division by zero")
    else Except.ok (loan_amount / (num_payments : ℚ))

/-- The four conversions at the top of `osfi_b20_stress_test`, in source
order, with the source defaults 0, 0, 3.5 and 25. -/
def convStress (event : Event) : Except String (ℚ × ℚ × ℚ × ℤ) := do
  let purchase_price ← pyFloat event ("purchase_price") 0
  let down_payment ← pyFloat event ("down_payment") 0
  let contract_rate ← pyFloat event ("contract_interest_rate") 3.5
  let amortization ← pyInt event ("amortization_years") 25
  pure (purchase_price, down_payment, contract_rate, amortization)

/-- Body of `osfi_b20_stress_test` after the conversions: the zero-price
check, the qualifying rate, and the two payment computations, in source
order (qualifying payment first). An error raised by either payment is
caught by the blanket handler and prefixed. -/
def stressBody (purchase_price down_payment contract_rate : ℚ) (amortization : ℤ) :
    Except String StressTestResult :=
  if purchase_price = 0 then Except.error ("Purchase price is required")
  else
    let loan_amount := purchase_price - down_payment
    let qualifying_rate := max (contract_rate + 2.0) 5.25
    let monthly_rate := qualifying_rate / 100 / 12
    let num_payments := amortization * 12
    let contract_monthly_rate := contract_rate / 100 / 12
    match pyPayment loan_amount monthly_rate num_payments,
        pyPayment loan_amount contract_monthly_rate num_payments with
    | Except.ok qualifying_payment, Except.ok actual_payment =>
      Except.ok
        { contract_rate := contract_rate
          qualifying_rate := qualifying_rate
          stress_test_applied := decide (qualifying_rate > contract_rate)
          qualifying_payment := round2 qualifying_payment
          actual_payment := round2 actual_payment
          additional_qualifying_amount := round2 (qualifying_payment - actual_payment)
          loan_amount := round2 loan_amount
          amortization_years := amortization }
    | Except.error e, _ => Except.error ("Stress test calculation failed: " ++ e)
    | Except.ok _, Except.error e => Except.error ("Stress test calculation failed: " ++ e)

/-- `osfi_b20_stress_test`: qualifying rate per OSFI B-20 and the monthly
payment at the qualifying and at the contract rate. -/
def osfi_b20_stress_test (event : Event) : Except String StressTestResult :=
  match convStress event with
  | Except.error e => Except.error ("Stress test calculation failed: " ++ e)
  | Except.ok (purchase_price, down_payment, contract_rate, amortization) =>
    stressBody purchase_price down_payment contract_rate amortization

/-- Event carrying the four numeric stress-test arguments. -/
def mkStressEvent (pp dp cr : ℚ) (am : ℤ) : Event :=
  [("purchase_price", JVal.num pp),
   ("down_payment", JVal.num dp),
   ("contract_interest_rate", JVal.num cr),
   ("amortization_years", JVal.num (am : ℚ))]

/-- Result dictionary of `calculate_down_payment`. The Python
recommendation key, which interpolates a thousands-separated currency
amount, is omitted. -/
structure DownPaymentResult where
  purchase_price : ℚ
  min_down_payment : ℚ
  actual_down_payment : ℚ
  down_payment_pct : ℚ
  sufficient : Bool
  cmhc_insurance_required : Bool
  cmhc_premium : ℚ
  cmhc_rate_pct : ℚ
  total_loan_amount : ℚ
  shortfall : ℚ
  deriving DecidableEq

/-- The two conversions at the top of `calculate_down_payment`. -/
def convDown (event : Event) : Except String (ℚ × ℚ) := do
  let purchase_price ← pyFloat event ("purchase_price") 0
  let actual_down_payment ← pyFloat event ("proposed_down_payment") 0
  pure (purchase_price, actual_down_payment)

/-- The CMHC premium-rate band of `calculate_down_payment`, keyed by
down-payment percentage, exactly as the nested conditionals in the
source. -/
def cmhcRateBand (down_payment_pct : ℚ) : ℚ :=
  if down_payment_pct ≥ 20 then 0
  else if down_payment_pct ≥ 15 then 2.80
  else if down_payment_pct ≥ 10 then 3.10
  else if down_payment_pct ≥ 5 then 4.00
  else 0

/-- Body of `calculate_down_payment` after the conversions: tiered minimum
down payment, CMHC requirement and premium banded by down-payment
percentage, sufficiency and shortfall. The source sets both the rate and
the premium inside one conditional block; here each is a conditional with
that same test. -/
def downBody (purchase_price actual_down_payment : ℚ) : Except String DownPaymentResult :=
  if purchase_price = 0 then Except.error ("Purchase price is required")
  else
    let min_down_payment :=
      if purchase_price ≤ 500000 then purchase_price * 0.05
      else if purchase_price ≤ 1000000 then 500000 * 0.05 + (purchase_price - 500000) * 0.10
      else purchase_price * 0.20
    let down_payment_pct := (actual_down_payment / purchase_price) * 100
    let cmhc_required := decide (down_payment_pct < 20)
    let cmhc_rate : ℚ :=
      if cmhc_required = true ∧ purchase_price < 1000000 then cmhcRateBand down_payment_pct
      else 0
    let cmhc_premium : ℚ :=
      if cmhc_required = true ∧ purchase_price < 1000000 then
        (purchase_price - actual_down_payment) * (cmhc_rate / 100)
      else 0
    Except.ok
      { purchase_price := round2 purchase_price
        min_down_payment := round2 min_down_payment
        actual_down_payment := round2 actual_down_payment
        down_payment_pct := round2 down_payment_pct
        sufficient := decide (actual_down_payment ≥ min_down_payment)
        cmhc_insurance_required := cmhc_required
        cmhc_premium := round2 cmhc_premium
        cmhc_rate_pct := cmhc_rate
        total_loan_amount := round2 ((purchase_price - actual_down_payment) + cmhc_premium)
        shortfall := round2 (max 0 (min_down_payment - actual_down_payment)) }

/-- `calculate_down_payment`: Canadian minimum down payment and CMHC
insurance premium. -/
def calculate_down_payment (event : Event) : Except String DownPaymentResult :=
  match convDown event with
  | Except.error e => Except.error ("Down payment calculation failed: " ++ e)
  | Except.ok (purchase_price, actual_down_payment) =>
    downBody purchase_price actual_down_payment

/-- Event carrying the two numeric down-payment arguments. -/
def mkDownEvent (pp pdp : ℚ) : Event :=
  [("purchase_price", JVal.num pp),
   ("proposed_down_payment", JVal.num pdp)]

/-- Result dictionary of `check_credit_threshold`. -/
structure CreditResult where
  credit_score : ℤ
  category : String
  min_required_score : ℤ
  mortgage_type : String
  approved : Bool
  points_above_minimum : ℤ
  recommendation : String
  deriving DecidableEq

/-- The two conversions at the top of `check_credit_threshold`: `int` for
the score, `float` with default 5 for the percentage. -/
def convCredit (event : Event) : Except String (ℤ × ℚ) := do
  let credit_score ← pyInt event ("credit_score") 0
  let down_payment_pct ← pyFloat event ("down_payment_percentage") 5
  pure (credit_score, down_payment_pct)

/-- Body of `check_credit_threshold` after the conversions: minimum score
by mortgage type, approval, and the credit-score category bands. -/
def creditBody (credit_score : ℤ) (down_payment_pct : ℚ) : Except String CreditResult :=
  if credit_score = 0 then Except.error ("Credit score is required")
  else
    let min_score : ℤ := if down_payment_pct ≥ 20 then 650 else 600
    let mortgage_type : String :=
      if down_payment_pct ≥ 20 then ("Conventional") else ("CMHC Insured")
    let approved := decide (credit_score ≥ min_score)
    let category : String :=
      if credit_score ≥ 800 then ("Excellent")
      else if credit_score ≥ 720 then ("Very Good")
      else if credit_score ≥ 650 then ("Good")
      else if credit_score ≥ 600 then ("Fair")
      else ("Poor")
    Except.ok
      { credit_score := credit_score
        category := category
        min_required_score := min_score
        mortgage_type := mortgage_type
        approved := approved
        points_above_minimum := credit_score - min_score
        recommendation :=
          if approved then ("Approved - Credit score meets requirements")
          else ("Denied - Credit score too low (need " ++ toString min_score ++
            "+ for " ++ mortgage_type ++ " mortgage)") }

/-- `check_credit_threshold`: credit score against the CMHC minimum for
the mortgage type implied by the down-payment percentage. -/
def check_credit_threshold (event : Event) : Except String CreditResult :=
  match convCredit event with
  | Except.error e => Except.error ("Credit check failed: " ++ e)
  | Except.ok (credit_score, down_payment_pct) =>
    creditBody credit_score down_payment_pct

/-- Event carrying the two numeric credit-check arguments. -/
def mkCreditEvent (cs : ℤ) (dpp : ℚ) : Event :=
  [("credit_score", JVal.num (cs : ℚ)),
   ("down_payment_percentage", JVal.num dpp)]

/-- Payload of a 200 envelope: the value placed under the result key.
Each calculator outcome is either its result dictionary or, when the
calculator caught a fault or failed validation, an ErrorResult carrying
the single error message. `placeholder` echoes the event, as the no-op
placeholder tool does. -/
inductive ToolResult where
  | gdsTds : GdsTdsResult → ToolResult
  | stress : StressTestResult → ToolResult
  | downPayment : DownPaymentResult → ToolResult
  | credit : CreditResult → ToolResult
  | placeholder : Event → ToolResult
  | errorResult : String → ToolResult
  deriving DecidableEq

/-- Body of the lambda response: the result key on success, the error key
for client errors, the system error key for dispatch faults. -/
inductive Body where
  | result : ToolResult → Body
  | error : String → Body
  | systemError : String → Body
  deriving DecidableEq

/-- The `_response` wrapper: a status code and a JSON body. -/
structure Envelope where
  statusCode : ℕ
  body : Body
  deriving DecidableEq

/-- Wrap a calculator outcome as the dispatcher does: the ok value is the
result dictionary, the caught error is an ErrorResult dictionary. -/
def wrapGds : Except String GdsTdsResult → ToolResult
  | Except.ok r => ToolResult.gdsTds r
  | Except.error e => ToolResult.errorResult e

def wrapStress : Except String StressTestResult → ToolResult
  | Except.ok r => ToolResult.stress r
  | Except.error e => ToolResult.errorResult e

def wrapDown : Except String DownPaymentResult → ToolResult
  | Except.ok r => ToolResult.downPayment r
  | Except.error e => ToolResult.errorResult e

def wrapCredit : Except String CreditResult → ToolResult
  | Except.ok r => ToolResult.credit r
  | Except.error e => ToolResult.errorResult e

/-- The characters after the first occurrence of `sep` in a character
list, if `sep` occurs at all: the second component of a Python
`split(sep, 1)` of length two. -/
def afterSep (sep : List Char) : List Char → Option (List Char)
  | [] => none
  | c :: cs =>
    if sep.isPrefixOf (c :: cs) then some ((c :: cs).drop sep.length)
    else afterSep sep cs

/-- Tool-name resolution from the gateway-qualified identifier: when the
identifier is nonempty and contains the `___` separator, the tool name is
the substring after the first occurrence; otherwise no name is resolved. -/
def resolveToolName (extended : Option String) : Option String :=
  match extended with
  | none => none
  | some s =>
    if s = "" then none
    else
      match afterSep ['_', '_', '_'] s.data with
      | none => none
      | some rest => some (String.mk rest)

/-- The name-comparison chain of `lambda_handler` on a resolved tool
name: the falsy check, the five recognized tools, and the unknown-tool
client error. -/
def dispatchTool (tool_name : String) (event : Event) : Envelope :=
  if tool_name = "" then { statusCode := 400, body := Body.error ("Missing tool name") }
  else if tool_name = "calculate_gds_tds" then
    { statusCode := 200, body := Body.result (wrapGds (calculate_gds_tds event)) }
  else if tool_name = "osfi_b20_stress_test" then
    { statusCode := 200, body := Body.result (wrapStress (osfi_b20_stress_test event)) }
  else if tool_name = "calculate_down_payment" then
    { statusCode := 200, body := Body.result (wrapDown (calculate_down_payment event)) }
  else if tool_name = "check_credit_threshold" then
    { statusCode := 200, body := Body.result (wrapCredit (check_credit_threshold event)) }
  else if tool_name = "placeholder_tool" then
    { statusCode := 200, body := Body.result (ToolResult.placeholder event) }
  else
    { statusCode := 400,
      body := Body.error ("Unknown tool \x27" ++ tool_name ++ "\x27") }

/-- `lambda_handler`: resolve the tool name from the client context and
dispatch to the matching tool; 400 for a missing or unknown name, 200 with
the wrapped outcome for a recognized one. `extended` is the value the
handler reads from the client context custom attributes. -/
def lambda_handler (extended : Option String) (event : Event) : Envelope :=
  match resolveToolName extended with
  | none => { statusCode := 400, body := Body.error ("Missing tool name") }
  | some tool_name => dispatchTool tool_name event

/-- Modelled from the spec: the monthly-payment rule exactly as the
specification states it, with the straight-line case only when the rate
is exactly zero; the formula branch is used for every nonzero rate. Used
to compare the specified rule against the code. -/
def specMonthlyPayment (L r : ℚ) (n : ℤ) : ℚ :=
  if r = 0 then L / (n : ℚ)
  else L * (r * (1 + r) ^ n) / ((1 + r) ^ n - 1)

/-- Modelled from the spec, amended: the monthly-payment rule with the
straight-line case for every rate that is not positive, matching the
code guard. -/
def specMonthlyPaymentAmended (L r : ℚ) (n : ℤ) : ℚ :=
  if 0 < r then L * (r * (1 + r) ^ n) / ((1 + r) ^ n - 1)
  else L / (n : ℚ)

/-- Modelled from the spec: the CMHC premium rate as the claim states it,
banded by down-payment percentage, and 0 whenever the premium does not
apply. -/
def specCmhcRate (pp pdp : ℚ) : ℚ :=
  let pct := pdp / pp * 100
  if pct < 20 ∧ pp < 1000000 then
    if 15 ≤ pct then 2.80
    else if 10 ≤ pct then 3.10
    else if 5 ≤ pct then 4.00
    else 0
  else 0

/-- Modelled from the spec: the tiered minimum down payment as the claim
states it. -/
def specMinDown (pp : ℚ) : ℚ :=
  if pp ≤ 500000 then 0.05 * pp
  else if pp ≤ 1000000 then 0.05 * 500000 + 0.10 * (pp - 500000)
  else 0.20 * pp

theorem ratTrunc_intCast (n : ℤ) : ratTrunc ((n : ℤ) : ℚ) = n := by
  simp [ratTrunc, Rat.num_intCast, Rat.den_intCast]

theorem roundHalfEven_nonpos (q : ℚ) (hq : q ≤ 0) : roundHalfEven q ≤ 0 := by
  have hfl : (⌊q⌋ : ℚ) ≤ q := Int.floor_le q
  have hfl0 : ⌊q⌋ ≤ 0 := Int.floor_nonpos hq
  have hsucc : ¬ q - ⌊q⌋ < 1/2 → ⌊q⌋ + 1 ≤ 0 := by
    intro h1
    push_neg at h1
    have h3 : (⌊q⌋ : ℚ) ≤ -(1/2) := by linarith
    have h3b : (⌊q⌋ : ℚ) < 0 := h3.trans_lt (by norm_num)
    have h4 : ⌊q⌋ < 0 := by exact_mod_cast h3b
    omega
  unfold roundHalfEven
  split
  · exact hfl0
  · rename_i h1
    split
    · exact hsucc h1
    · split
      · exact hfl0
      · exact hsucc h1

theorem round2_nonpos (q : ℚ) (hq : q ≤ 0) : round2 q ≤ 0 := by
  have h : roundHalfEven (q * 100) ≤ 0 := roundHalfEven_nonpos (q * 100) (by nlinarith)
  have h2 : ((roundHalfEven (q * 100) : ℤ) : ℚ) ≤ 0 := by exact_mod_cast h
  unfold round2
  linarith

theorem convStress_mk (pp dp cr : ℚ) (am : ℤ) :
    convStress (mkStressEvent pp dp cr am) = Except.ok (pp, dp, cr, am) := by
  show Except.ok (pp, dp, cr, ratTrunc ((am : ℤ) : ℚ)) = Except.ok (pp, dp, cr, am)
  rw [ratTrunc_intCast]

theorem osfi_mk (pp dp cr : ℚ) (am : ℤ) :
    osfi_b20_stress_test (mkStressEvent pp dp cr am) = stressBody pp dp cr am := by
  unfold osfi_b20_stress_test
  rw [convStress_mk]

theorem convCredit_mk (cs : ℤ) (dpp : ℚ) :
    convCredit (mkCreditEvent cs dpp) = Except.ok (cs, dpp) := by
  show Except.ok (ratTrunc ((cs : ℤ) : ℚ), dpp) = Except.ok (cs, dpp)
  rw [ratTrunc_intCast]

theorem credit_mk (cs : ℤ) (dpp : ℚ) :
    check_credit_threshold (mkCreditEvent cs dpp) = creditBody cs dpp := by
  unfold check_credit_threshold
  rw [convCredit_mk]

/-- C1: for every GDS/TDS request with nonzero gross annual income, the
calculator succeeds and the returned result satisfies: gds_pass holds iff
the (unrounded) GDS ratio is at most 39, tds_pass holds iff the TDS ratio
is at most 44, and overall_pass is the conjunction of the two, where the
GDS ratio is housing costs with half the condo fees over monthly income
times 100 and the TDS ratio adds the other monthly debts. -/
theorem c1_gds_tds_pass_flags (gi mp pt ht cf od : ℚ) (hgi : gi ≠ 0) :
    ∃ r, calculate_gds_tds (mkGdsEvent gi mp pt ht cf od) = Except.ok r
      ∧ (r.gds_pass = true ↔ (mp + pt + ht + 0.5 * cf) / (gi / 12) * 100 ≤ 39)
      ∧ (r.tds_pass = true ↔ (mp + pt + ht + 0.5 * cf + od) / (gi / 12) * 100 ≤ 44)
      ∧ r.overall_pass = (r.gds_pass && r.tds_pass) := by
  have h : calculate_gds_tds (mkGdsEvent gi mp pt ht cf od) = gdsBody gi mp pt ht cf od := rfl
  rw [h]
  simp only [gdsBody, if_neg hgi]
  refine ⟨_, rfl, ?_, ?_, rfl⟩
  · simp only [decide_eq_true_eq]
  · simp only [decide_eq_true_eq]

/-- Witness for C1 at a concrete request. -/
theorem c1_witness :
    (120000 : ℚ) ≠ 0 ∧
    (∃ r, calculate_gds_tds (mkGdsEvent 120000 1500 300 100 400 600) = Except.ok r
      ∧ (r.gds_pass = true ↔ (1500 + 300 + 100 + 0.5 * (400 : ℚ)) / (120000 / 12) * 100 ≤ 39)
      ∧ (r.tds_pass = true ↔
          (1500 + 300 + 100 + 0.5 * (400 : ℚ) + 600) / (120000 / 12) * 100 ≤ 44)
      ∧ r.overall_pass = (r.gds_pass && r.tds_pass)) :=
  ⟨by norm_num, c1_gds_tds_pass_flags 120000 1500 300 100 400 600 (by norm_num)⟩

/-- C10 counterexample: gross annual income -12, all housing cost inputs 0
and monthly other debts 100 is a request whose cost inputs are nonnegative
with one positive, yet the returned GDS ratio is 0, not negative, because
the GDS numerator is 0. -/
theorem c10_counterexample :
    ∃ r, calculate_gds_tds (mkGdsEvent (-12) 0 0 0 0 100) = Except.ok r
      ∧ r.gds_ratio_pct = 0 ∧ ¬ r.gds_ratio_pct < 0 := by
  have h : calculate_gds_tds (mkGdsEvent (-12) 0 0 0 0 100) = gdsBody (-12) 0 0 0 0 100 := rfl
  rw [h]
  simp only [gdsBody, if_neg (show ¬(-12 : ℚ) = 0 by norm_num)]
  refine ⟨_, rfl, ?_, ?_⟩
  · norm_num [round2, roundHalfEven]
  · norm_num [round2, roundHalfEven]

/-- C10 amended: for every GDS/TDS request with strictly negative gross
annual income, the calculator returns a success result (only income
exactly 0 is rejected) in which, whenever the monthly cost inputs are
nonnegative and at least one is positive, both returned ratios are
nonpositive (rather than negative: the GDS ratio is 0 when all housing
costs are 0) and gds_pass, tds_pass and overall_pass are all true. -/
theorem c10_negative_income (gi mp pt ht cf od : ℚ) (hgi : gi < 0)
    (hmp : 0 ≤ mp) (hpt : 0 ≤ pt) (hht : 0 ≤ ht) (hcf : 0 ≤ cf) (hod : 0 ≤ od)
    (hpos : 0 < mp + pt + ht + cf + od) :
    ∃ r, calculate_gds_tds (mkGdsEvent gi mp pt ht cf od) = Except.ok r
      ∧ r.gds_ratio_pct ≤ 0 ∧ r.tds_ratio_pct ≤ 0
      ∧ r.gds_pass = true ∧ r.tds_pass = true ∧ r.overall_pass = true := by
  have hgi0 : gi ≠ 0 := ne_of_lt hgi
  have h : calculate_gds_tds (mkGdsEvent gi mp pt ht cf od) = gdsBody gi mp pt ht cf od := rfl
  rw [h]
  simp only [gdsBody, if_neg hgi0]
  have hmi : gi / 12 < 0 := div_neg_of_neg_of_pos hgi (by norm_num)
  have hhalf : 0 ≤ 0.5 * cf := by nlinarith
  have hcosts : 0 ≤ mp + pt + ht + 0.5 * cf := by linarith
  have htcosts : 0 ≤ mp + pt + ht + 0.5 * cf + od := by linarith
  have hgr : (mp + pt + ht + 0.5 * cf) / (gi / 12) * 100 ≤ 0 := by
    have h1 : (mp + pt + ht + 0.5 * cf) / (gi / 12) ≤ 0 :=
      div_nonpos_of_nonneg_of_nonpos hcosts hmi.le
    linarith
  have htr : (mp + pt + ht + 0.5 * cf + od) / (gi / 12) * 100 ≤ 0 := by
    have h1 : (mp + pt + ht + 0.5 * cf + od) / (gi / 12) ≤ 0 :=
      div_nonpos_of_nonneg_of_nonpos htcosts hmi.le
    linarith
  refine ⟨_, rfl, round2_nonpos _ hgr, round2_nonpos _ htr, ?_, ?_, ?_⟩
  · simp only [decide_eq_true_eq]
    linarith
  · simp only [decide_eq_true_eq]
    linarith
  · simp only [Bool.and_eq_true, decide_eq_true_eq]
    exact ⟨by linarith, by linarith⟩

/-- Witness for the amended C10 at a concrete request. -/
theorem c10_witness :
    ((-12 : ℚ) < 0 ∧ (0 : ℚ) ≤ 100 ∧ (0 : ℚ) < 100 + 0 + 0 + 0 + 0) ∧
    (∃ r, calculate_gds_tds (mkGdsEvent (-12) 100 0 0 0 0) = Except.ok r
      ∧ r.gds_ratio_pct ≤ 0 ∧ r.tds_ratio_pct ≤ 0
      ∧ r.gds_pass = true ∧ r.tds_pass = true ∧ r.overall_pass = true) :=
  ⟨⟨by norm_num, by norm_num, by norm_num⟩,
    c10_negative_income (-12) 100 0 0 0 0 (by norm_num) (by norm_num) (by norm_num)
      (by norm_num) (by norm_num) (by norm_num) (by norm_num)⟩

/-- C4: for every down-payment request with nonzero purchase price, the
returned minimum down payment is the tiered amount of the spec (5 percent
up to 500000, 5 percent of the first 500000 plus 10 percent of the
remainder up to 1000000, 20 percent above that), sufficiency holds iff
the proposed down payment reaches that amount, and at purchase price
650000 the minimum is 40000. -/
theorem c4_min_down_payment (pp pdp : ℚ) (hpp : pp ≠ 0) :
    ∃ r, calculate_down_payment (mkDownEvent pp pdp) = Except.ok r
      ∧ r.min_down_payment = round2 (specMinDown pp)
      ∧ (r.sufficient = true ↔ specMinDown pp ≤ pdp)
      ∧ (∃ r2, calculate_down_payment (mkDownEvent 650000 pdp) = Except.ok r2
          ∧ r2.min_down_payment = 40000) := by
  have hmin : (if pp ≤ 500000 then pp * 0.05
      else if pp ≤ 1000000 then 500000 * 0.05 + (pp - 500000) * 0.10
      else pp * 0.20) = specMinDown pp := by
    unfold specMinDown
    split_ifs <;> ring
  have h : calculate_down_payment (mkDownEvent pp pdp) = downBody pp pdp := rfl
  rw [h]
  simp only [downBody, if_neg hpp]
  refine ⟨_, rfl, ?_, ?_, ?_⟩
  · simp only [hmin]
  · simp only [hmin, decide_eq_true_eq, ge_iff_le]
  · have h2 : calculate_down_payment (mkDownEvent 650000 pdp) = downBody 650000 pdp := rfl
    rw [h2]
    simp only [downBody, if_neg (show ¬(650000 : ℚ) = 0 by norm_num)]
    refine ⟨_, rfl, ?_⟩
    simp only [if_neg (show ¬(650000 : ℚ) ≤ 500000 by norm_num),
      if_pos (show (650000 : ℚ) ≤ 1000000 by norm_num)]
    norm_num [round2, roundHalfEven]

/-- Witness for C4 at a concrete request. -/
theorem c4_witness :
    (650000 : ℚ) ≠ 0 ∧
    (∃ r, calculate_down_payment (mkDownEvent 650000 50000) = Except.ok r
      ∧ r.min_down_payment = round2 (specMinDown 650000)
      ∧ (r.sufficient = true ↔ specMinDown 650000 ≤ 50000)
      ∧ (∃ r2, calculate_down_payment (mkDownEvent 650000 50000) = Except.ok r2
          ∧ r2.min_down_payment = 40000)) :=
  ⟨by norm_num, c4_min_down_payment 650000 50000 (by norm_num)⟩

/-- C3: for every down-payment request with nonzero purchase price, the
returned CMHC rate is the banded rate of the spec, applied only when the
down-payment percentage is below 20 and the purchase price is below one
million; the premium is the loan amount times that rate over 100; both are
0 whenever the premium does not apply; and the request with purchase price
650000 and proposed down payment 50000 yields percentage 7.69, insurance
required, rate 4.00 and premium 24000.00. -/
theorem c3_cmhc_premium (pp pdp : ℚ) (hpp : pp ≠ 0) :
    ∃ r, calculate_down_payment (mkDownEvent pp pdp) = Except.ok r
      ∧ r.cmhc_rate_pct = specCmhcRate pp pdp
      ∧ r.cmhc_premium = round2 ((pp - pdp) * specCmhcRate pp pdp / 100)
      ∧ (¬ (pdp / pp * 100 < 20 ∧ pp < 1000000) →
          r.cmhc_rate_pct = 0 ∧ r.cmhc_premium = 0)
      ∧ (∃ r2, calculate_down_payment (mkDownEvent 650000 50000) = Except.ok r2
          ∧ r2.down_payment_pct = 7.69 ∧ r2.cmhc_insurance_required = true
          ∧ r2.cmhc_rate_pct = 4.00 ∧ r2.cmhc_premium = 24000) := by
  have hconc : ∃ r2, calculate_down_payment (mkDownEvent 650000 50000) = Except.ok r2
      ∧ r2.down_payment_pct = 7.69 ∧ r2.cmhc_insurance_required = true
      ∧ r2.cmhc_rate_pct = 4.00 ∧ r2.cmhc_premium = 24000 := by
    have h2 : calculate_down_payment (mkDownEvent 650000 50000) = downBody 650000 50000 := rfl
    rw [h2]
    simp only [downBody, cmhcRateBand, if_neg (show ¬(650000 : ℚ) = 0 by norm_num)]
    have hlt : (50000 : ℚ) / 650000 * 100 < 20 := by norm_num
    simp only [if_pos (show decide ((50000 : ℚ) / 650000 * 100 < 20) = true ∧
        (650000 : ℚ) < 1000000 from ⟨decide_eq_true hlt, by norm_num⟩),
      if_neg (show ¬ (50000 : ℚ) / 650000 * 100 ≥ 20 by norm_num),
      if_neg (show ¬ (50000 : ℚ) / 650000 * 100 ≥ 15 by norm_num),
      if_neg (show ¬ (50000 : ℚ) / 650000 * 100 ≥ 10 by norm_num),
      if_pos (show (50000 : ℚ) / 650000 * 100 ≥ 5 by norm_num)]
    refine ⟨_, rfl, ?_, ?_, rfl, ?_⟩
    · norm_num [round2, roundHalfEven]
    · exact decide_eq_true hlt
    · norm_num [round2, roundHalfEven]
  have h : calculate_down_payment (mkDownEvent pp pdp) = downBody pp pdp := rfl
  rw [h]
  simp only [downBody, if_neg hpp]
  by_cases hcond : decide (pdp / pp * 100 < 20) = true ∧ pp < 1000000
  · have hclt : pdp / pp * 100 < 20 := of_decide_eq_true hcond.1
    have hrate : cmhcRateBand (pdp / pp * 100) = specCmhcRate pp pdp := by
      unfold specCmhcRate cmhcRateBand
      rw [if_pos (show pdp / pp * 100 < 20 ∧ pp < 1000000 from ⟨hclt, hcond.2⟩),
        if_neg (show ¬ pdp / pp * 100 ≥ 20 from not_le.mpr hclt)]
    simp only [if_pos hcond, hrate]
    refine ⟨_, rfl, rfl, ?_, ?_, hconc⟩
    · have harg : (pp - pdp) * (specCmhcRate pp pdp / 100) =
          (pp - pdp) * specCmhcRate pp pdp / 100 := by ring
      rw [harg]
    · intro hn
      exact absurd ⟨hclt, hcond.2⟩ hn
  · have hnc : ¬ (pdp / pp * 100 < 20 ∧ pp < 1000000) := by
      intro hand
      exact hcond ⟨decide_eq_true hand.1, hand.2⟩
    have hrate0 : specCmhcRate pp pdp = 0 := by
      unfold specCmhcRate
      rw [if_neg hnc]
    have hr20 : round2 0 = 0 := by norm_num [round2, roundHalfEven]
    simp only [if_neg hcond, hrate0]
    refine ⟨_, rfl, rfl, ?_, fun _ => ⟨rfl, hr20⟩, hconc⟩
    have harg : (pp - pdp) * (0 : ℚ) / 100 = 0 := by ring
    rw [harg]

/-- C8: for every credit-check request with nonzero credit score, the
minimum required score is 650 with mortgage type Conventional when the
down-payment percentage is at least 20 and otherwise 600 with CMHC
Insured, approval holds iff the score reaches the minimum, the category is
the highest matching band, and score 680 with percentage 5 yields CMHC
Insured, minimum 600, approved, category Good. -/
theorem c8_credit_threshold (cs : ℤ) (dpp : ℚ) (hcs : cs ≠ 0) :
    ∃ r, check_credit_threshold (mkCreditEvent cs dpp) = Except.ok r
      ∧ r.min_required_score = (if dpp ≥ 20 then 650 else 600)
      ∧ r.mortgage_type = (if dpp ≥ 20 then ("Conventional") else ("CMHC Insured"))
      ∧ (r.approved = true ↔ r.min_required_score ≤ cs)
      ∧ r.category = (if cs ≥ 800 then ("Excellent") else if cs ≥ 720 then ("Very Good")
          else if cs ≥ 650 then ("Good") else if cs ≥ 600 then ("Fair") else ("Poor"))
      ∧ (∃ r2, check_credit_threshold (mkCreditEvent 680 5) = Except.ok r2
          ∧ r2.mortgage_type = ("CMHC Insured") ∧ r2.min_required_score = 600
          ∧ r2.approved = true ∧ r2.category = ("Good")) := by
  rw [credit_mk]
  simp only [creditBody, if_neg hcs]
  refine ⟨_, rfl, rfl, rfl, ?_, rfl, ?_⟩
  · simp only [decide_eq_true_eq, ge_iff_le]
  · rw [credit_mk]
    simp only [creditBody, if_neg (show ¬(680 : ℤ) = 0 by norm_num),
      if_neg (show ¬(5 : ℚ) ≥ 20 by norm_num),
      if_neg (show ¬(680 : ℤ) ≥ 800 by norm_num),
      if_neg (show ¬(680 : ℤ) ≥ 720 by norm_num),
      if_pos (show (680 : ℤ) ≥ 650 by norm_num)]
    refine ⟨_, rfl, rfl, rfl, ?_, rfl⟩
    rw [decide_eq_true_eq]
    norm_num

/-- Witness for C8 at a concrete request. -/
theorem c8_witness :
    (680 : ℤ) ≠ 0 ∧
    (∃ r, check_credit_threshold (mkCreditEvent 680 5) = Except.ok r
      ∧ r.min_required_score = (if (5 : ℚ) ≥ 20 then 650 else 600)
      ∧ r.mortgage_type = (if (5 : ℚ) ≥ 20 then ("Conventional") else ("CMHC Insured"))
      ∧ (r.approved = true ↔ r.min_required_score ≤ 680)
      ∧ r.category = (if (680 : ℤ) ≥ 800 then ("Excellent")
          else if (680 : ℤ) ≥ 720 then ("Very Good")
          else if (680 : ℤ) ≥ 650 then ("Good")
          else if (680 : ℤ) ≥ 600 then ("Fair") else ("Poor"))
      ∧ (∃ r2, check_credit_threshold (mkCreditEvent 680 5) = Except.ok r2
          ∧ r2.mortgage_type = ("CMHC Insured") ∧ r2.min_required_score = 600
          ∧ r2.approved = true ∧ r2.category = ("Good"))) :=
  ⟨by norm_num, c8_credit_threshold 680 5 (by norm_num)⟩

theorem pyPayment_ok (L r : ℚ) (n : ℤ) (hn : 0 < n) :
    ∃ p, pyPayment L r n = Except.ok p := by
  unfold pyPayment
  by_cases hr : 0 < r
  · have h1 : (1 : ℚ) < 1 + r := by linarith
    have h2 : (1 : ℚ) < (1 + r) ^ n := one_lt_zpow₀ h1 hn
    rw [if_pos hr, if_neg (show ¬ ((1 + r) ^ n - 1 = 0) by intro h0; linarith)]
    exact ⟨_, rfl⟩
  · have hnz : ((n : ℤ) : ℚ) ≠ 0 := Int.cast_ne_zero.mpr hn.ne.symm
    rw [if_neg hr, if_neg hnz]
    exact ⟨_, rfl⟩

theorem pyPayment_ok_val (L r : ℚ) (n : ℤ) (p : ℚ)
    (h : pyPayment L r n = Except.ok p) : p = specMonthlyPaymentAmended L r n := by
  unfold pyPayment at h
  unfold specMonthlyPaymentAmended
  by_cases hr : 0 < r
  · rw [if_pos hr] at h
    rw [if_pos hr]
    by_cases hd : (1 + r) ^ n - 1 = 0
    · rw [if_pos hd] at h
      cases h
    · rw [if_neg hd] at h
      injection h with h
      exact h.symm
  · rw [if_neg hr] at h
    rw [if_neg hr]
    by_cases hz : ((n : ℤ) : ℚ) = 0
    · rw [if_pos hz] at h
      cases h
    · rw [if_neg hz] at h
      injection h with h
      exact h.symm

/-- C2: for every stress-test request with nonzero purchase price, any
returned result carries qualifying rate max(contract rate + 2, 5.25), and
with the default 25-year amortization a result is returned; contract rate
3.5 yields 5.5 and contract rate 5.0 yields 7.0. -/
theorem c2_qualifying_rate (pp dp cr : ℚ) (am : ℤ) (hpp : pp ≠ 0) :
    (∀ r, osfi_b20_stress_test (mkStressEvent pp dp cr am) = Except.ok r →
        r.qualifying_rate = max (cr + 2.0) 5.25)
    ∧ (∃ r, osfi_b20_stress_test (mkStressEvent pp dp 3.5 25) = Except.ok r
        ∧ r.qualifying_rate = 5.5)
    ∧ (∃ r, osfi_b20_stress_test (mkStressEvent pp dp 5.0 25) = Except.ok r
        ∧ r.qualifying_rate = 7.0) := by
  refine ⟨?_, ?_, ?_⟩
  · intro r hr
    rw [osfi_mk] at hr
    simp only [stressBody, if_neg hpp] at hr
    rcases hq : pyPayment (pp - dp) (max (cr + 2.0) 5.25 / 100 / 12) (am * 12) with e | qp
    · rw [hq] at hr
      simp at hr
    · rcases hap : pyPayment (pp - dp) (cr / 100 / 12) (am * 12) with e | ap
      · rw [hq, hap] at hr
        simp at hr
      · rw [hq, hap] at hr
        injection hr with hr
        rw [← hr]
  · obtain ⟨qp, hq⟩ := pyPayment_ok (pp - dp) (max ((3.5 : ℚ) + 2.0) 5.25 / 100 / 12)
      ((25 : ℤ) * 12) (by norm_num)
    obtain ⟨ap, hap⟩ := pyPayment_ok (pp - dp) ((3.5 : ℚ) / 100 / 12)
      ((25 : ℤ) * 12) (by norm_num)
    rw [osfi_mk]
    simp only [stressBody, if_neg hpp]
    rw [hq, hap]
    refine ⟨_, rfl, ?_⟩
    rw [max_eq_left (show (5.25 : ℚ) ≤ 3.5 + 2.0 by norm_num)]
    norm_num
  · obtain ⟨qp, hq⟩ := pyPayment_ok (pp - dp) (max ((5.0 : ℚ) + 2.0) 5.25 / 100 / 12)
      ((25 : ℤ) * 12) (by norm_num)
    obtain ⟨ap, hap⟩ := pyPayment_ok (pp - dp) ((5.0 : ℚ) / 100 / 12)
      ((25 : ℤ) * 12) (by norm_num)
    rw [osfi_mk]
    simp only [stressBody, if_neg hpp]
    rw [hq, hap]
    refine ⟨_, rfl, ?_⟩
    rw [max_eq_left (show (5.25 : ℚ) ≤ 5.0 + 2.0 by norm_num)]
    norm_num

/-- Witness for C2 at a concrete request. -/
theorem c2_witness :
    (500000 : ℚ) ≠ 0 ∧
    ((∀ r, osfi_b20_stress_test (mkStressEvent 500000 100000 4.5 25) = Except.ok r →
        r.qualifying_rate = max ((4.5 : ℚ) + 2.0) 5.25)
    ∧ (∃ r, osfi_b20_stress_test (mkStressEvent 500000 100000 3.5 25) = Except.ok r
        ∧ r.qualifying_rate = 5.5)
    ∧ (∃ r, osfi_b20_stress_test (mkStressEvent 500000 100000 5.0 25) = Except.ok r
        ∧ r.qualifying_rate = 7.0)) :=
  ⟨by norm_num, c2_qualifying_rate 500000 100000 4.5 25 (by norm_num)⟩

/-- C7 counterexample: at purchase price 12, down payment 0, contract rate
-12 and amortization 1 year, the contract monthly rate is -0.01, which is
nonzero, so the claimed rule computes the closed amortization formula
(about 0.94 after rounding), while the code, whose guard is rate greater
than 0, returns the straight-line payment 1. -/
theorem c7_counterexample :
    ∃ r, osfi_b20_stress_test (mkStressEvent 12 0 (-12) 1) = Except.ok r
      ∧ r.actual_payment = 1
      ∧ round2 (specMonthlyPayment (12 - 0) ((-12 : ℚ) / 100 / 12) ((1 : ℤ) * 12)) ≠ 1 := by
  obtain ⟨qp, hq⟩ := pyPayment_ok ((12 : ℚ) - 0) (max ((-12 : ℚ) + 2.0) 5.25 / 100 / 12)
    ((1 : ℤ) * 12) (by norm_num)
  have hap : pyPayment ((12 : ℚ) - 0) ((-12 : ℚ) / 100 / 12) ((1 : ℤ) * 12) =
      Except.ok (((12 : ℚ) - 0) / (((1 : ℤ) * 12 : ℤ) : ℚ)) := by
    unfold pyPayment
    rw [if_neg (show ¬ (0 : ℚ) < (-12 : ℚ) / 100 / 12 by norm_num),
      if_neg (show ¬ (((1 : ℤ) * 12 : ℤ) : ℚ) = 0 by norm_num)]
  rw [osfi_mk]
  simp only [stressBody, if_neg (show ¬ (12 : ℚ) = 0 by norm_num)]
  rw [hq, hap]
  refine ⟨_, rfl, ?_, ?_⟩
  · norm_num [round2, roundHalfEven]
  · unfold specMonthlyPayment
    rw [if_neg (show ¬ ((-12 : ℚ) / 100 / 12) = 0 by norm_num)]
    norm_num [round2, roundHalfEven]

/-- C7 amended: for every stress-test request with nonzero purchase price,
any returned result carries the monthly payment computed by the
amortization formula applied twice, at the qualifying and at the contract
monthly rate, except that when a rate is not positive (zero or negative,
rather than only exactly zero) the payment is loan amount over number of
payments. -/
theorem c7_payment_formula (pp dp cr : ℚ) (am : ℤ) (hpp : pp ≠ 0) :
    ∀ r, osfi_b20_stress_test (mkStressEvent pp dp cr am) = Except.ok r →
      r.qualifying_payment = round2 (specMonthlyPaymentAmended (pp - dp)
          (max (cr + 2.0) 5.25 / 100 / 12) (am * 12))
      ∧ r.actual_payment = round2 (specMonthlyPaymentAmended (pp - dp)
          (cr / 100 / 12) (am * 12)) := by
  intro r hr
  rw [osfi_mk] at hr
  simp only [stressBody, if_neg hpp] at hr
  rcases hq : pyPayment (pp - dp) (max (cr + 2.0) 5.25 / 100 / 12) (am * 12) with e | qp
  · rw [hq] at hr
    simp at hr
  · rcases hap : pyPayment (pp - dp) (cr / 100 / 12) (am * 12) with e | ap
    · rw [hq, hap] at hr
      simp at hr
    · rw [hq, hap] at hr
      injection hr with hr
      rw [← hr]
      exact ⟨by rw [pyPayment_ok_val _ _ _ _ hq], by rw [pyPayment_ok_val _ _ _ _ hap]⟩

/-- Witness for the amended C7 at a concrete request. -/
theorem c7_witness :
    (500000 : ℚ) ≠ 0 ∧
    (∀ r, osfi_b20_stress_test (mkStressEvent 500000 100000 3.5 25) = Except.ok r →
      r.qualifying_payment = round2 (specMonthlyPaymentAmended (500000 - 100000)
          (max ((3.5 : ℚ) + 2.0) 5.25 / 100 / 12) ((25 : ℤ) * 12))
      ∧ r.actual_payment = round2 (specMonthlyPaymentAmended (500000 - 100000)
          ((3.5 : ℚ) / 100 / 12) ((25 : ℤ) * 12))) :=
  ⟨by norm_num, c7_payment_formula 500000 100000 3.5 25 (by norm_num)⟩

/-- C5 counterexample: the resolved name placeholder_tool lies outside the
four-element calculator set, yet the dispatcher returns a 200 envelope
carrying the placeholder result, not a 400 Unknown-tool error: the
handler recognizes a fifth tool. -/
theorem c5_counterexample :
    resolveToolName (some ("T___placeholder_tool")) = some ("placeholder_tool")
    ∧ "placeholder_tool" ∉ ["calculate_gds_tds", "osfi_b20_stress_test",
        "calculate_down_payment", "check_credit_threshold"]
    ∧ lambda_handler (some ("T___placeholder_tool")) [] =
        { statusCode := 200, body := Body.result (ToolResult.placeholder []) }
    ∧ (lambda_handler (some ("T___placeholder_tool")) []).statusCode ≠ 400 := by
  refine ⟨rfl, by decide, rfl, by decide⟩

/-- C5 amended: for every resolved tool name outside the five-element set
of recognized names (the four calculators and placeholder_tool), the
dispatcher returns a 400 client-error envelope, with message Missing tool
name when the name is empty or absent and Unknown tool otherwise, and no
tool is invoked. -/
theorem c5_unknown_tool (ext : Option String) (event : Event) :
    ((resolveToolName ext = none ∨ resolveToolName ext = some ("")) →
      lambda_handler ext event =
        { statusCode := 400, body := Body.error ("Missing tool name") })
    ∧ (∀ t, resolveToolName ext = some t → t ≠ "" →
        t ∉ ["calculate_gds_tds", "osfi_b20_stress_test", "calculate_down_payment",
          "check_credit_threshold", "placeholder_tool"] →
        lambda_handler ext event =
          { statusCode := 400, body := Body.error ("Unknown tool \x27" ++ t ++ "\x27") }) := by
  constructor
  · intro h
    rcases h with h | h
    · unfold lambda_handler
      rw [h]
    · have he : lambda_handler ext event = dispatchTool ("") event := by
        unfold lambda_handler
        rw [h]
      rw [he]
      unfold dispatchTool
      rw [if_pos rfl]
  · intro t ht hne hmem
    simp only [List.mem_cons, List.not_mem_nil, or_false, not_or] at hmem
    obtain ⟨h1, h2, h3, h4, h5⟩ := hmem
    have he : lambda_handler ext event = dispatchTool t event := by
      unfold lambda_handler
      rw [ht]
    rw [he]
    unfold dispatchTool
    rw [if_neg hne, if_neg h1, if_neg h2, if_neg h3, if_neg h4, if_neg h5]

/-- Witness for the amended C5 at a concrete unknown tool name. -/
theorem c5_witness :
    lambda_handler (some ("T___bogus")) [] =
      { statusCode := 400, body := Body.error ("Unknown tool \x27bogus\x27") } :=
  (c5_unknown_tool (some ("T___bogus")) []).2 ("bogus") rfl (by decide) (by decide)

/-- C6: for every request resolved to one of the four calculators, the
dispatcher returns a 200 envelope whose body is the wrapped calculator
outcome; every calculator fault is caught inside the calculator and comes
back inside that 200 payload as an ErrorResult, never as a 500 envelope. -/
theorem c6_calculator_always_200 (ext : Option String) (event : Event) (t : String)
    (hres : resolveToolName ext = some t)
    (ht : t ∈ ["calculate_gds_tds", "osfi_b20_stress_test", "calculate_down_payment",
      "check_credit_threshold"]) :
    (lambda_handler ext event).statusCode = 200
    ∧ ∃ tr, (lambda_handler ext event).body = Body.result tr := by
  have he : lambda_handler ext event = dispatchTool t event := by
    unfold lambda_handler
    rw [hres]
  rw [he]
  simp only [List.mem_cons, List.not_mem_nil, or_false] at ht
  rcases ht with rfl | rfl | rfl | rfl
  · exact ⟨rfl, ⟨_, rfl⟩⟩
  · exact ⟨rfl, ⟨_, rfl⟩⟩
  · exact ⟨rfl, ⟨_, rfl⟩⟩
  · exact ⟨rfl, ⟨_, rfl⟩⟩

/-- Witness for C6 at a concrete request: the empty event drives the
GDS/TDS calculator into its validation error, and the dispatcher still
returns 200 with a result body. -/
theorem c6_witness :
    resolveToolName (some ("X___calculate_gds_tds")) = some ("calculate_gds_tds") ∧
    ((lambda_handler (some ("X___calculate_gds_tds")) []).statusCode = 200
      ∧ ∃ tr, (lambda_handler (some ("X___calculate_gds_tds")) []).body = Body.result tr) :=
  ⟨rfl, c6_calculator_always_200 (some ("X___calculate_gds_tds")) [] ("calculate_gds_tds")
    rfl (by decide)⟩

/-- Witness for C3 at a concrete request. -/
theorem c3_witness :
    (650000 : ℚ) ≠ 0 ∧
    (∃ r, calculate_down_payment (mkDownEvent 650000 50000) = Except.ok r
      ∧ r.cmhc_rate_pct = specCmhcRate 650000 50000
      ∧ r.cmhc_premium = round2 ((650000 - 50000) * specCmhcRate 650000 50000 / 100)
      ∧ (¬ ((50000 : ℚ) / 650000 * 100 < 20 ∧ (650000 : ℚ) < 1000000) →
          r.cmhc_rate_pct = 0 ∧ r.cmhc_premium = 0)
      ∧ (∃ r2, calculate_down_payment (mkDownEvent 650000 50000) = Except.ok r2
          ∧ r2.down_payment_pct = 7.69 ∧ r2.cmhc_insurance_required = true
          ∧ r2.cmhc_rate_pct = 4.00 ∧ r2.cmhc_premium = 24000)) :=
  ⟨by norm_num, c3_cmhc_premium 650000 50000 (by norm_num)⟩
